import Mathlib

/-!
A shallow embedding of `src/lrun.cc` (the lrun sandbox supervisor) and proofs
about its option parsing, configuration checking, cgroup setup, supervisor
loop, status reporting and cleanup.

Conventions of the embedding:
* C `double` quantities (time limits, samples) are embedded as `ℚ`;
  `long long` as `Int`; ids and signal numbers as `Nat`.
* Functions of external modules that are not part of `lrun.cc`
  (`fs.*`, `strconv.*`, the `Cgroup` class, the seccomp compiler) enter as
  oracles: explicit parameters recording what the call would have returned.
  Numeric/byte CLI arguments are taken already converted (`strconv` is such an
  external module), so the option list is a list of typed options.
* Side effects that the claims are about (writes to fd 3, spawning the child,
  destroying or killing the cgroup, stderr messages) are recorded as an
  explicit event trace.
-/

namespace Lrun

/-- Event trace of the observable side effects of the supervisor. -/
inductive Ev
  | stderrMsg (s : String)
  | fd3Write (s : String)
  | fd3Close
  | spawnChild
  | cgDestroy
  | cgKillall
deriving DecidableEq

/-- `seccomp::action_t` values used by `lrun.cc`: `DEFAULT_EPERM` (whitelist
mode) and `OTHERS_EPERM` (chosen by a leading `!` or `-` on `--syscalls`). -/
inductive SyscallAction
  | defaultEperm
  | othersEperm
deriving DecidableEq

/-- Modelled from the spec and the `--help-syscalls` text in `lrun.cc` (the
seccomp module's sources are not in `src/`): under `defaultEperm` unlisted
syscalls return EPERM (whitelist); under `othersEperm` unlisted syscalls are
allowed. -/
def unlistedAllowed : SyscallAction → Bool
  | .defaultEperm => false
  | .othersEperm => true

/-- The RLIMIT_* resources `lrun.cc` writes into `config.arg.rlimits`. -/
inductive RLimit
  | cpu
  | fsize
  | nofile
  | nproc
  | rtprio
  | core
  | stack
deriving DecidableEq

/-- `config.arg.rlimits[r] = v` (C++ `std::map` assignment). -/
def setRLimit : List (RLimit × Int) → RLimit → Int → List (RLimit × Int)
  | [], r, v => [(r, v)]
  | (r', v') :: rest, r, v =>
      if r' = r then (r, v) :: rest else (r', v') :: setRLimit rest r v

/-- Lookup in the rlimit map. -/
def getRLimit : List (RLimit × Int) → RLimit → Option Int
  | [], _ => none
  | (r', v) :: rest, r => if r' = r then some v else getRLimit rest r

/-- `config.arg.remount_list[dest] |= flags` (C++ `std::map` default-inserts 0). -/
def addRemountFlag : List (String × Nat) → String → Nat → List (String × Nat)
  | [], d, f => [(d, f)]
  | (d', f') :: rest, d, f =>
      if d' = d then (d', f' ||| f) :: rest else (d', f') :: addRemountFlag rest d f

/-- `config.arg.bindfs_dest_set.insert(dest)` (C++ `std::set`; only membership
is ever read, so the insertion order chosen here is immaterial). -/
def insertDest (l : List String) (d : String) : List String :=
  if l.contains d then l else l ++ [d]

/-- The fields of the global `config` struct of `lrun.cc` that the embedded
functions read or write. -/
structure Config where
  cpuTimeLimit : ℚ
  realTimeLimit : ℚ
  memoryLimit : Int
  outputLimit : Int
  enableDevicesWhitelist : Bool
  passExitcode : Bool
  cgname : String
  groups : List Nat
  cgroupOptions : List ((Nat × String) × String)
  uid : Nat
  gid : Nat
  nice : Int
  noNewPrivs : Bool
  syscallAction : SyscallAction
  syscallList : List Char
  rlimits : List (RLimit × Int)
  argc : Int
  cmdList : List String
  bindfsList : List (String × String)
  bindfsDestSet : List String
  remountList : List (String × Nat)
  chrootPath : String
  chdirPath : String
deriving DecidableEq

/-- `init_default_config()` (lrun.cc:263-296) restricted to the embedded
fields; `curUid`/`curGid` stand for `getuid()`/`getgid()`. `argc` stands for
the remaining `config.arg.argc` after option parsing and is filled in by
`lrun_main`. -/
def init_default_config (curUid curGid : Nat) : Config where
  cpuTimeLimit := -1
  realTimeLimit := -1
  memoryLimit := -1
  outputLimit := -1
  enableDevicesWhitelist := false
  passExitcode := false
  cgname := ""
  groups := []
  cgroupOptions := []
  uid := curUid
  gid := curGid
  nice := 0
  noNewPrivs := true
  syscallAction := .othersEperm
  syscallList := []
  rlimits := [(.nofile, 256), (.nproc, 2048), (.rtprio, 0), (.core, 0)]
  argc := 0
  cmdList := []
  bindfsList := []
  bindfsDestSet := []
  remountList := []
  chrootPath := ""
  chdirPath := ""

/-- CLI options of `parse_cli_options` (lrun.cc:298-526) that touch the
embedded configuration fields, with their arguments already converted by
`strconv` (an external module). -/
inductive CliOpt
  | maxCpuTime (sec : ℚ)
  | maxRealTime (sec : ℚ)
  | maxMemory (bytes : Int)
  | maxOutput (bytes : Int)
  | maxNprocess (n : Int)
  | maxRtprio (n : Int)
  | maxNfile (n : Int)
  | maxStack (n : Int)
  | basicDevices (b : Bool)
  | passExitcodeOpt (b : Bool)
  | chrootOpt (p : String)
  | chdirOpt (p : String)
  | niceOpt (n : Int)
  | uidOpt (u : Nat)
  | gidOpt (g : Nat)
  | noNewPrivsOpt (b : Bool)
  | syscallsOpt (spec : List Char)
  | groupOpt (gid : Nat)
  | cgnameOpt (s : String)
  | remountRo (dest : String)
  | bindfsOpt (dest src : String)
  | bindfsRoOpt (dest src : String)
  | cmdOpt (s : String)
deriving DecidableEq

/-- One branch of the option loop of `parse_cli_options`. -/
def applyOpt (c : Config) : CliOpt → Config
  | .maxCpuTime sec => {c with cpuTimeLimit := sec}
  | .maxRealTime sec => {c with realTimeLimit := sec}
  | .maxMemory bytes =>
      -- lrun.cc:333-341: raise a positive value below MIN_MEMORY_LIMIT
      let m := if 0 < bytes ∧ bytes < 500000 then 500000 else bytes
      {c with memoryLimit := m}
  | .maxOutput bytes =>
      -- lrun.cc:342-345: also sets RLIMIT_FSIZE to the same value
      {c with outputLimit := bytes, rlimits := setRLimit c.rlimits .fsize bytes}
  | .maxNprocess n => {c with rlimits := setRLimit c.rlimits .nproc n}
  | .maxRtprio n => {c with rlimits := setRLimit c.rlimits .rtprio n}
  | .maxNfile n => {c with rlimits := setRLimit c.rlimits .nofile n}
  | .maxStack n => {c with rlimits := setRLimit c.rlimits .stack n}
  | .basicDevices b => {c with enableDevicesWhitelist := b}
  | .passExitcodeOpt b => {c with passExitcode := b}
  | .chrootOpt p => {c with chrootPath := p}
  | .chdirOpt p => {c with chdirPath := p}
  | .niceOpt n => {c with nice := n}
  | .uidOpt u => {c with uid := u}
  | .gidOpt g => {c with gid := g}
  | .noNewPrivsOpt b => {c with noNewPrivs := b}
  | .syscallsOpt spec =>
      -- lrun.cc:401-415: switch on the first character of the spec
      let c1 := {c with syscallAction := SyscallAction.defaultEperm}
      match spec with
      | '!' :: rest => {c1 with syscallAction := .othersEperm, syscallList := rest}
      | '-' :: rest => {c1 with syscallAction := .othersEperm, syscallList := rest}
      | '=' :: rest => {c1 with syscallList := rest}
      | '+' :: rest => {c1 with syscallList := rest}
      | _ => {c1 with syscallList := spec}
  | .groupOpt gid =>
      -- lrun.cc:416-419: gid 0 is silently dropped
      if gid ≠ 0 then {c with groups := c.groups ++ [gid]} else c
  | .cgnameOpt s => {c with cgname := s}
  | .remountRo dest => {c with remountList := addRemountFlag c.remountList dest 1}
  | .bindfsOpt dest src =>
      {c with bindfsList := c.bindfsList ++ [(dest, src)],
              bindfsDestSet := insertDest c.bindfsDestSet dest}
  | .bindfsRoOpt dest src =>
      {c with bindfsList := c.bindfsList ++ [(dest, src)],
              bindfsDestSet := insertDest c.bindfsDestSet dest,
              remountList := addRemountFlag c.remountList dest 1}
  | .cmdOpt s => {c with cmdList := c.cmdList ++ [s]}

/-- The option loop of `parse_cli_options` over the modelled options. -/
def parse_cli_options (c : Config) : List CliOpt → Config
  | [] => c
  | o :: rest => parse_cli_options (applyOpt c o) rest

/-- Path-probing calls of the external `fs` module (`fs.cc` is not in `src/`);
modelled from the spec as an oracle recording what each call would return. -/
structure FsOracle where
  isAbsolute : String → Bool
  isDir : String → Bool
  isAccessible : String → Nat → Bool
  expand : String → String
  join : String → String → String

/-- `access_mode_to_str` (lrun.cc:528-534); R_OK=4, W_OK=2, X_OK=1. -/
def access_mode_to_str (mode : Nat) : String :=
  (if mode &&& 4 ≠ 0 then "r" else "")
  ++ (if mode &&& 2 ≠ 0 then "w" else "")
  ++ (if mode &&& 1 ≠ 0 then "x" else "")

/-- The relative-path error message of `check_path_permission`. -/
def relPathMsg (path : String) : String :=
  "Relative paths are forbidden for non-root users.\nPlease change: " ++ path

/-- The missing-permission error message of `check_path_permission`. -/
def permMsg (mode : Nat) (path : String) : String :=
  "You do not have `" ++ access_mode_to_str mode ++ "` permission on " ++ path

/-- `check_path_permission` (lrun.cc:536-551), returning the messages it would
append. -/
def check_path_permission (fo : FsOracle) (path : String) (mode : Nat) : List String :=
  if fo.isAbsolute path = false then
    [relPathMsg path]
  else
    let mode2 := if fo.isDir path then mode ||| 1 else mode
    if fo.isAccessible path mode2 = false then
      [permMsg mode2 path]
    else []

/-- The scan of `follow_binds` (lrun.cc:553-566) from the last bind down. -/
def followBindsFrom : List (String × String) → String → String
  | [], result => result
  | (dest, src) :: rest, result =>
      let pfx := dest ++ "/"
      if pfx.isPrefixOf result then src ++ result.drop (pfx.length - 1)
      else followBindsFrom rest result

/-- `follow_binds` (lrun.cc:553-566). -/
def follow_binds (fo : FsOracle) (binds : List (String × String)) (path : String) : String :=
  if fo.isAbsolute path = false then path
  else followBindsFrom binds.reverse (fo.expand path)

/-- The `--bindfs` checking loop of `check_config` (lrun.cc:609-615):
returns the collected messages and the accumulated `binds` vector. -/
def bindfsCheckLoop (fo : FsOracle) :
    List (String × String) → List (String × String) → List String × List (String × String)
  | [], binds => ([], binds)
  | (dest, src) :: rest, binds =>
      let msgs := check_path_permission fo (follow_binds fo binds src) 4
      let binds2 := binds ++ [(fo.expand dest, follow_binds fo binds (fo.expand src))]
      let r := bindfsCheckLoop fo rest binds2
      (msgs ++ r.1, r.2)

def uidZeroMsg : String :=
  "For security reason, running commands with uid = 0 is not allowed.\nPlease specify a user ID using `--uid`."

def uidOtherMsg : String :=
  "For security reason, setting uid to other user requires root."

def gidZeroMsg : String :=
  "For security reason, running commands with gid = 0 is not allowed.\nPlease specify a group ID using `--gid`."

def gidOtherMsg : String :=
  "For security reason, setting gid to other group requires root."

def emptyCommandMsg : String :=
  "command_args can not be empty.\nUse `--help` to see full options."

def cmdRootMsg : String :=
  "For security reason, `--cmd` requires root."

def groupRootMsg : String :=
  "For security reason, `--group` requires root."

def remountRoMsg : String :=
  "For security reason, `--remount-ro A` is only allowed if there is a `--bindfs A B`."

def noNewPrivsMsg : String :=
  "For security remount, `--no-new-privs false` is forbidden for non-root users."

def negNiceMsg : String :=
  "Non-root users cannot set a negative value of `--nice`"

def emptyWhitelistMsg : String :=
  "Syscall filter forbids all syscalls, which is not allowed."

def fixupMsg : String :=
  "Please fix these errors and try again.\n"

/-- The `--remount-ro` restriction of `check_config` (lrun.cc:629-638): one
message per remount entry whose destination is not a bindfs destination. -/
def remountRoMsgs (c : Config) : List String :=
  c.remountList.filterMap
    (fun p => if c.bindfsDestSet.contains p.1 then none else some remountRoMsg)

/-- The `if (!is_root) { ... }` block of `check_config` (lrun.cc:596-650):
root-only options, path checks, the `--remount-ro` restriction,
`--no-new-privs false` and negative `--nice`. -/
def nonRootChecks (fo : FsOracle) (c : Config) : List String :=
  (if 0 < c.cmdList.length then [cmdRootMsg] else [])
  ++ (if 0 < c.groups.length then [groupRootMsg] else [])
  ++ (bindfsCheckLoop fo c.bindfsList []).1
  ++ (if c.chrootPath ≠ "" then
        check_path_permission fo
          (follow_binds fo (bindfsCheckLoop fo c.bindfsList []).2 c.chrootPath) 4
      else [])
  ++ (if c.chdirPath ≠ "" then
        check_path_permission fo
          (follow_binds fo (bindfsCheckLoop fo c.bindfsList []).2
            (fo.join c.chrootPath c.chdirPath)) 4
      else [])
  ++ remountRoMsgs c
  ++ (if c.noNewPrivs = false then [noNewPrivsMsg] else [])
  ++ (if c.nice < 0 then [negNiceMsg] else [])

/-- `check_config` (lrun.cc:568-665): the collected error messages in the
order the code appends them. `curUid`/`curGid` stand for
`getuid()`/`getgid()`; `is_root` is `getuid() == 0`. -/
def check_config (fo : FsOracle) (curUid curGid : Nat) (c : Config) : List String :=
  (if c.uid = 0 then [uidZeroMsg]
   else if curUid ≠ 0 ∧ c.uid ≠ curUid then [uidOtherMsg] else [])
  ++ (if c.gid = 0 then [gidZeroMsg]
      else if curUid ≠ 0 ∧ c.gid ≠ curGid then [gidOtherMsg] else [])
  ++ (if c.argc ≤ 0 then [emptyCommandMsg] else [])
  ++ (if curUid = 0 then [] else nonRootChecks fo c)
  ++ (if c.syscallList = [] ∧ c.syscallAction = SyscallAction.defaultEperm
      then [emptyWhitelistMsg] else [])

/-- `clean_cg_exit` (lrun.cc:690-700): the cleanup events and the exit code.
An empty `config.cgname` means lrun picked its own cgroup (destroy it); a
non-empty one was user-supplied (killall, do not remove). -/
def clean_cg_exit (c : Config) (exitCode : Int) : List Ev × Int :=
  ((if c.cgname = "" then [Ev.cgDestroy] else [Ev.cgKillall]), exitCode)

/-- Results of the `Cgroup` calls made by `setup_cgroup` (the `Cgroup` class
is an external module); `true` means the call failed. -/
structure SetupOracle where
  limitDevicesFails : Bool
  setMemoryLimitFails : Bool
  cgOptionFails : (Nat × String) × String → Bool
  resetUsagesFails : Bool

/-- `setup_cgroup` (lrun.cc:766-815): exits through `clean_cg_exit` with a
distinct code per failing step, otherwise installs `RLIMIT_CPU` when a cpu
time limit is set. -/
def setup_cgroup (so : SetupOracle) (c : Config) : Except (List Ev × Int) Config :=
  if c.enableDevicesWhitelist = true ∧ so.limitDevicesFails = true then
    .error (clean_cg_exit c 1)
  else if 0 < c.memoryLimit ∧ so.setMemoryLimitFails = true then
    .error (clean_cg_exit c 2)
  else if (c.cgroupOptions.find? so.cgOptionFails).isSome then
    .error (clean_cg_exit c 7)
  else if so.resetUsagesFails then
    .error (clean_cg_exit c 4)
  else
    .ok (if 0 < c.cpuTimeLimit then
           {c with rlimits := setRLimit c.rlimits .cpu c.cpuTimeLimit.ceil}
         else c)

/-- Child status as seen through `waitpid`: the `WIFEXITED`, `WIFSIGNALED`,
`WEXITSTATUS`, `WTERMSIG` views of `stat`. -/
structure Stat where
  ifExited : Bool
  ifSignaled : Bool
  exitStatus : Nat
  termSig : Nat
deriving DecidableEq

/-- The cleared `stat = 0` (lrun.cc:885). -/
def Stat.zero : Stat := ⟨false, false, 0, 0⟩

/-- Result of the non-blocking `waitpid` at lrun.cc:868. -/
inductive WaitRes
  | reaped (st : Stat)
  | echild
  | nothingYet
deriving DecidableEq

/-- Result of the second `waitpid` in the zombie branch (lrun.cc:911). -/
inductive ZWait
  | err
  | nothingYet
  | reaped (st : Stat)
deriving DecidableEq

/-- What one iteration of the supervisor loop observes: the signal flag, the
`waitpid` result, the cgroup accounting samples, `/proc` state, the second
`waitpid` of the zombie branch, the output counter and the emptiness check. -/
structure Obs where
  signalTriggered : Nat
  waitRes : WaitRes
  cpuSample : ℚ
  nowTime : ℚ
  memPeak : Int
  procState : Char
  zombieWait : ZWait
  outputBytes : Int
  cgEmpty : Bool
deriving DecidableEq

/-- Outcome of one loop iteration. -/
inductive StepRes
  | cleanup (code : Int)
  | breakLoop (stat : Stat) (exceeded : String)
  | next (stat : Stat) (exceeded : String) (running : Bool)
deriving DecidableEq

/-- The zombie branch (lrun.cc:905-916): on `'Z'`, stop running and reap once
more; a failing reap exits with code 6. -/
def zombieCheck (ob : Obs) : Except Int (Stat × Bool) :=
  if ob.procState = 'Z' then
    match ob.zombieWait with
    | .err => .error 6
    | .nothingYet => .ok (Stat.zero, false)
    | .reaped st => .ok (st, false)
  else .ok (Stat.zero, true)

/-- The limit checks and bookkeeping of one iteration after the `waitpid`
check, with `stat` already cleared (lrun.cc:884-941). -/
def afterWait (c : Config) (dl : ℚ) (ob : Obs) (exc : String) : StepRes :=
  if 0 < c.cpuTimeLimit ∧ c.cpuTimeLimit ≤ ob.cpuSample then
    .breakLoop Stat.zero "CPU_TIME"
  else if 0 < dl ∧ dl ≤ ob.nowTime then
    .breakLoop Stat.zero "REAL_TIME"
  else if c.memoryLimit ≤ ob.memPeak ∧ 0 < c.memoryLimit then
    .breakLoop Stat.zero "MEMORY"
  else
    match zombieCheck ob with
    | .error code => .cleanup code
    | .ok (st, running) =>
        if 0 < c.outputLimit ∧ c.outputLimit < ob.outputBytes then
          .breakLoop st "OUTPUT"
        else
          .next st exc (if ob.cgEmpty then false else running)

/-- One iteration of the supervisor loop (lrun.cc:859-942). The incoming
`stat` is dead on every path (it is either replaced by `waitpid` or cleared at
lrun.cc:885), but is kept as a parameter to mirror the loop's state. -/
def loopBody (c : Config) (dl : ℚ) (ob : Obs) (_stat0 : Stat) (exc : String) : StepRes :=
  if ob.signalTriggered ≠ 0 then .cleanup 4
  else
    match ob.waitRes with
    | .reaped st =>
        if st.ifExited || st.ifSignaled then .breakLoop st exc
        else afterWait c dl ob exc
    | _ => afterWait c dl ob exc

/-- How the supervisor loop ended: through `clean_cg_exit`, or normally with
the reaped status and the limit tag the loop detected. -/
inductive LoopExit
  | cleanup (code : Int)
  | finished (stat : Stat) (exceeded : String)
deriving DecidableEq

/-- The supervisor loop over a finite stream of observations; `none` when the
stream ends with the loop still running. -/
def runLoop (c : Config) (dl : ℚ) : List Obs → Stat → String → Option LoopExit
  | [], _, _ => none
  | ob :: rest, stat, exc =>
    match loopBody c dl ob stat exc with
    | .cleanup code => some (.cleanup code)
    | .breakLoop st ex => some (.finished st ex)
    | .next st ex running =>
        if running then runLoop c dl rest st ex else some (.finished st ex)

/-- The cgroup samples read after the loop (lrun.cc:947, 953) and the final
`now()` (lrun.cc:963). -/
structure FinalSamples where
  memPeak : Int
  cpuUsage : ℚ
  endTime : ℚ
deriving DecidableEq

def SIGXCPU : Nat := 24

def SIGXFSZ : Nat := 25

/-- The fields of the status report. -/
structure RunStats where
  memory : Int
  cputime : ℚ
  realtime : ℚ
  signaled : Bool
  exitcode : Nat
  termsig : Nat
  exceeded : String
deriving DecidableEq

/-- The post-loop stat collection (lrun.cc:946-983): clamp each usage to its
limit when exceeded, overwrite the tag in the order memory, cpu (also on
SIGXCPU), output (on SIGXFSZ), real time, and substitute `none` for an empty
tag. -/
def collectStats (c : Config) (startTime : ℚ) (smp : FinalSamples) (stat : Stat)
    (exc : String) : RunStats :=
  let memCond := 0 < c.memoryLimit ∧ c.memoryLimit ≤ smp.memPeak
  let memoryUsage := if memCond then c.memoryLimit else smp.memPeak
  let exc1 := if memCond then "MEMORY" else exc
  let cpuCond := (stat.ifSignaled = true ∧ stat.termSig = SIGXCPU)
                 ∨ (0 < c.cpuTimeLimit ∧ c.cpuTimeLimit ≤ smp.cpuUsage)
  let cpuTimeUsage := if cpuCond then c.cpuTimeLimit else smp.cpuUsage
  let exc2 := if cpuCond then "CPU_TIME" else exc1
  let exc3 := if stat.ifSignaled = true ∧ stat.termSig = SIGXFSZ then "OUTPUT" else exc2
  let rtCond := 0 < c.realTimeLimit ∧ c.realTimeLimit ≤ smp.endTime - startTime
  let realTimeUsage := if rtCond then c.realTimeLimit else smp.endTime - startTime
  let exc4 := if rtCond then "REAL_TIME" else exc3
  { memory := memoryUsage
    cputime := cpuTimeUsage
    realtime := realTimeUsage
    signaled := stat.ifSignaled
    exitcode := stat.exitStatus
    termsig := stat.termSig
    exceeded := if exc4 = "" then "none" else exc4 }

/-- The decimal digit character of `n % 10`. -/
def digitChar (n : Nat) : Char :=
  match n % 10 with
  | 0 => '0' | 1 => '1' | 2 => '2' | 3 => '3' | 4 => '4'
  | 5 => '5' | 6 => '6' | 7 => '7' | 8 => '8' | _ => '9'

/-- The `%.3f` rendering used by the status report: the value rounded to three
decimal places, always printed with exactly three digits after the point. -/
def fmt3 (q : ℚ) : String :=
  let n : Int := round (q * 1000)
  let m : Nat := n.natAbs
  (if n < 0 then "-" else "")
    ++ toString (m / 1000)
    ++ String.mk ['.', digitChar (m / 100), digitChar (m / 10), digitChar m]

/-- The key/value pairs of the status report in the order `snprintf` writes
them (lrun.cc:971-983). -/
def status_report (rs : RunStats) : List (String × String) :=
  [("MEMORY", toString rs.memory),
   ("CPUTIME", fmt3 rs.cputime),
   ("REALTIME", fmt3 rs.realtime),
   ("SIGNALED", if rs.signaled then "1" else "0"),
   ("EXITCODE", toString rs.exitcode),
   ("TERMSIG", toString rs.termsig),
   ("EXCEED", rs.exceeded)]

/-- Every key of the report is padded with blanks to column 9. -/
def padKey (k : String) : String := k ++ String.mk (List.replicate (9 - k.length) ' ')

/-- The full text written to fd 3. -/
def render_report (rs : RunStats) : String :=
  String.join ((status_report rs).map (fun kv => padKey kv.1 ++ kv.2 ++ "\n"))

/-- Result of `fcntl(3, F_SETFD, FD_CLOEXEC)` (lrun.cc:821-827): success, a
failure with `errno == EBADF`, or any other failure. -/
inductive FcntlRes
  | ok
  | failEbadf
  | failOther
deriving DecidableEq

/-- The environment of one `run_command` execution: the `fcntl` result, the
pid `cg.spawn` returned, the start time, the per-iteration observations and
the final samples. -/
structure RunOracle where
  fcntl : FcntlRes
  spawnPid : Int
  startTime : ℚ
  obs : List Obs
  final : FinalSamples
deriving DecidableEq

/-- How `run_command` ended: `exited` means it left through `clean_cg_exit`
(events include the cleanup), `finished` means it returned `ret` to `main`
after writing the report. -/
inductive CmdRes
  | exited (evs : List Ev) (code : Int)
  | finished (evs : List Ev) (ret : Int)
deriving DecidableEq

/-- The deadline computed at lrun.cc:851. -/
def deadlineOf (o : RunOracle) (c : Config) : ℚ :=
  if 0 < c.realTimeLimit then o.startTime + c.realTimeLimit else -1

/-- `run_command` (lrun.cc:817-992). `none` when the observation stream ends
before the loop does. -/
def run_command (o : RunOracle) (c : Config) : Option CmdRes :=
  if o.fcntl = FcntlRes.failOther then
    some (.exited (clean_cg_exit c 5).1 5)
  else if o.spawnPid ≤ 0 then
    some (.exited (clean_cg_exit c (10 - o.spawnPid)).1 (10 - o.spawnPid))
  else
    match runLoop c (deadlineOf o c) o.obs Stat.zero "" with
    | none => none
    | some (.cleanup code) =>
        some (.exited (Ev.spawnChild :: (clean_cg_exit c code).1) code)
    | some (.finished st exc) =>
        let rs := collectStats c o.startTime o.final st exc
        let ret : Int := if c.passExitcode then (st.exitStatus : Int) else 0
        some (.finished [Ev.spawnChild, Ev.fd3Write (render_report rs), Ev.fd3Close] ret)

/-- The configuration `main` checks: the parsed options, with `argc` standing
for the remaining command argument count after option parsing. -/
def parsedConfig (curUid curGid : Nat) (opts : List CliOpt) (cmdArgc : Int) : Config :=
  {parse_cli_options (init_default_config curUid curGid) opts with argc := cmdArgc}

/-- `main` (lrun.cc:994-1017) over the embedded phases: parse, check the
configuration (exit 1 with all messages on stderr when it fails), set up the
cgroup, run the command, and exit through `clean_cg_exit` with `run_command`'s
return value. -/
def lrun_main (fo : FsOracle) (so : SetupOracle) (o : RunOracle)
    (curUid curGid : Nat) (opts : List CliOpt) (cmdArgc : Int) :
    Option (List Ev × Int) :=
  let c := parsedConfig curUid curGid opts cmdArgc
  let msgs := check_config fo curUid curGid c
  if msgs.isEmpty then
    match setup_cgroup so c with
    | .error r => some r
    | .ok c2 =>
      match run_command o c2 with
      | none => none
      | some (.exited evs code) => some (evs, code)
      | some (.finished evs ret) =>
          let r := clean_cg_exit c2 ret
          some (evs ++ r.1, r.2)
  else
    some (msgs.map Ev.stderrMsg ++ [Ev.stderrMsg fixupMsg], 1)

/-! Definitions used to state the claims, and concrete fixtures. -/

/-- The values the loop's `exceeded_limit` string can hold. -/
def excTags : List String := ["", "CPU_TIME", "REAL_TIME", "MEMORY", "OUTPUT"]

/-- Invariant on a step result: its `exceeded` tag is a legal one. -/
def stepExcOk : StepRes → Prop
  | .cleanup _ => True
  | .breakLoop _ ex => ex ∈ excTags
  | .next _ ex _ => ex ∈ excTags

/-- `s` ends in a decimal point followed by exactly three digits. -/
def endsInThreeDecimals (s : String) : Prop :=
  ∃ t a b c, s = t ++ String.mk ['.', a, b, c]
    ∧ a.isDigit = true ∧ b.isDigit = true ∧ c.isDigit = true

/-- Whether a `--cgname` option occurs in the option list. -/
def hasCgnameOpt : List CliOpt → Bool
  | [] => false
  | .cgnameOpt _ :: _ => true
  | _ :: rest => hasCgnameOpt rest

/-- The argument of a `--cgname` option. -/
def cgnameArg : CliOpt → Option String
  | .cgnameOpt s => some s
  | _ => none

/-- The argument of the last `--cgname` option, `""` when there is none. -/
def lastCgname (opts : List CliOpt) : String :=
  (opts.reverse.findSome? cgnameArg).getD ""

/-- The arguments of the `--group` options, in order. -/
def groupArgs : List CliOpt → List Nat
  | [] => []
  | .groupOpt g :: rest => g :: groupArgs rest
  | _ :: rest => groupArgs rest

/-- A baseline configuration: lrun invoked by uid/gid 1000 with no options. -/
def cfg0 : Config := init_default_config 1000 1000

def fin0 : FinalSamples := ⟨0, 0, 0⟩

/-- A child that exited normally with status 0. -/
def statExit0 : Stat := ⟨true, false, 0, 0⟩

/-- An iteration observing the reaped, normally exited child. -/
def obExit : Obs := ⟨0, WaitRes.reaped statExit0, 0, 0, 0, 'R', ZWait.nothingYet, 0, false⟩

/-- A run where fd 3 is fine, the spawn succeeded and the child exits at once. -/
def oNormal : RunOracle := ⟨FcntlRes.ok, 1, 0, [obExit], fin0⟩

/-- The same run but `fcntl(3, F_SETFD, FD_CLOEXEC)` failed with `EBADF`. -/
def oEbadf : RunOracle := ⟨FcntlRes.failEbadf, 1, 0, [obExit], fin0⟩

/-- A configuration with `--max-cpu-time 1`. -/
def cfgCpu : Config := {cfg0 with cpuTimeLimit := 1}

/-- An iteration whose cpu sample equals the limit of `cfgCpu` exactly. -/
def obCpuEq : Obs := ⟨0, WaitRes.nothingYet, 1, 0, 0, 'R', ZWait.nothingYet, 0, false⟩

/-- A configuration with `--max-cpu-time 1 --max-real-time 1`. -/
def cfgC6 : Config := {cfg0 with cpuTimeLimit := 1, realTimeLimit := 1}

/-- A child killed by SIGXCPU. -/
def stXcpu : Stat := ⟨false, true, 0, 24⟩

/-- Final samples of a run that also overran the real-time limit. -/
def smpC6 : FinalSamples := ⟨0, 2, 5⟩

/-! Helper lemmas. -/

theorem getRLimit_setRLimit (l : List (RLimit × Int)) (r : RLimit) (v : Int) :
    getRLimit (setRLimit l r v) r = some v := by
  induction l with
  | nil => simp [setRLimit, getRLimit]
  | cons p rest ih =>
      by_cases h : p.1 = r
      · simp [setRLimit, getRLimit, h]
      · simp [setRLimit, getRLimit, h, ih]

theorem applyOpt_groups (c : Config) (o : CliOpt) (h : ∀ g, o ≠ CliOpt.groupOpt g) :
    (applyOpt c o).groups = c.groups := by
  cases o <;> first
    | rfl
    | exact absurd rfl (h _)
    | (simp only [applyOpt]; split <;> rfl)

theorem groupArgs_cons (o : CliOpt) (rest : List CliOpt) (h : ∀ g, o ≠ CliOpt.groupOpt g) :
    groupArgs (o :: rest) = groupArgs rest := by
  cases o <;> first
    | rfl
    | exact absurd rfl (h _)

theorem applyOpt_cgname (c : Config) (o : CliOpt) (h : cgnameArg o = none) :
    (applyOpt c o).cgname = c.cgname := by
  cases o <;> first
    | rfl
    | (simp only [applyOpt]; split <;> rfl)
    | (simp [cgnameArg] at h)

theorem parse_cgname (opts : List CliOpt) :
    ∀ c : Config, (parse_cli_options c opts).cgname
      = ((opts.reverse.findSome? cgnameArg).getD c.cgname) := by
  induction opts with
  | nil => intro c; simp [parse_cli_options]
  | cons o rest ih =>
      intro c
      rw [parse_cli_options, ih]
      simp only [List.reverse_cons, List.findSome?_append]
      cases hf : rest.reverse.findSome? cgnameArg with
      | some v => simp
      | none =>
          cases ho : cgnameArg o with
          | some s =>
              cases o <;> simp [cgnameArg] at ho
              subst ho
              simp [applyOpt, List.findSome?, cgnameArg]
          | none => simp [List.findSome?, ho, applyOpt_cgname c o ho]

theorem c10_groups_aux (opts : List CliOpt) :
    ∀ c : Config, (parse_cli_options c opts).groups
      = c.groups ++ (groupArgs opts).filter (fun g => g != 0) := by
  induction opts with
  | nil => intro c; simp [parse_cli_options, groupArgs]
  | cons o rest ih =>
      intro c
      rw [parse_cli_options, ih]
      by_cases hgr : ∃ g, o = CliOpt.groupOpt g
      · obtain ⟨g, rfl⟩ := hgr
        by_cases hg : g = 0
        · subst hg; simp [applyOpt, groupArgs, List.filter_cons]
        · simp [applyOpt, hg, groupArgs, List.filter_cons, List.append_assoc]
      · push_neg at hgr
        rw [applyOpt_groups c o hgr, groupArgs_cons o rest hgr]

theorem digitChar_isDigit (n : Nat) : (digitChar n).isDigit = true := by
  unfold digitChar
  split <;> decide

theorem fmt3_threeDecimals (q : ℚ) : endsInThreeDecimals (fmt3 q) :=
  ⟨(if round (q * 1000) < 0 then "-" else "") ++ toString ((round (q * 1000)).natAbs / 1000),
   digitChar ((round (q * 1000)).natAbs / 100),
   digitChar ((round (q * 1000)).natAbs / 10),
   digitChar (round (q * 1000)).natAbs,
   rfl, digitChar_isDigit _, digitChar_isDigit _, digitChar_isDigit _⟩

theorem afterWait_excOk (c : Config) (dl : ℚ) (ob : Obs) (exc : String)
    (h : exc ∈ excTags) : stepExcOk (afterWait c dl ob exc) := by
  unfold afterWait
  split
  · simp [stepExcOk, excTags]
  · split
    · simp [stepExcOk, excTags]
    · split
      · simp [stepExcOk, excTags]
      · split
        · trivial
        · split
          · simp [stepExcOk, excTags]
          · exact h

theorem loopBody_excOk (c : Config) (dl : ℚ) (ob : Obs) (st0 : Stat) (exc : String)
    (h : exc ∈ excTags) : stepExcOk (loopBody c dl ob st0 exc) := by
  unfold loopBody
  split
  · trivial
  · split
    · split
      · exact h
      · exact afterWait_excOk c dl ob exc h
    · exact afterWait_excOk c dl ob exc h

theorem runLoop_finished_exc (c : Config) (dl : ℚ) (obs : List Obs) :
    ∀ (stat : Stat) (exc : String), exc ∈ excTags →
      ∀ st ex, runLoop c dl obs stat exc = some (LoopExit.finished st ex) →
        ex ∈ excTags := by
  induction obs with
  | nil => intro stat exc h st ex hEq; simp [runLoop] at hEq
  | cons ob rest ih =>
      intro stat exc h st ex hEq
      have hOk := loopBody_excOk c dl ob stat exc h
      simp only [runLoop] at hEq
      rcases hLB : loopBody c dl ob stat exc with code | ⟨st2, ex2⟩ | ⟨st2, ex2, running⟩ <;>
        rw [hLB] at hEq hOk
      · simp at hEq
      · simp only [Option.some.injEq, LoopExit.finished.injEq] at hEq
        obtain ⟨_, rfl⟩ := hEq
        exact hOk
      · by_cases hr : running = true
        · subst hr
          simp at hEq
          exact ih st2 ex2 hOk st ex hEq
        · have hr2 : running = false := by simpa using hr
          subst hr2
          simp at hEq
          obtain ⟨_, rfl⟩ := hEq
          exact hOk

theorem collectStats_exceeded_mem (c : Config) (startTime : ℚ) (smp : FinalSamples)
    (stat : Stat) (exc : String) (h : exc ∈ excTags) :
    (collectStats c startTime smp stat exc).exceeded
      ∈ ["none", "CPU_TIME", "REAL_TIME", "MEMORY", "OUTPUT"] := by
  simp only [collectStats]
  split_ifs <;> simp_all [excTags]

/-! The claims. -/

/-- C3 (counterexample): `--cgname` was given (with an empty name), yet
cleanup destroys the cgroup instead of only killing its tasks, because
`clean_cg_exit` branches on the emptiness of `config.cgname`, not on whether
the option was given. -/
theorem c3_cleanup_cex :
    hasCgnameOpt [CliOpt.cgnameOpt ""] = true
    ∧ (clean_cg_exit (parse_cli_options (init_default_config 1000 1000)
        [CliOpt.cgnameOpt ""]) 0).1 = [Ev.cgDestroy]
    ∧ [Ev.cgDestroy] ≠ [Ev.cgKillall] :=
  ⟨rfl, rfl, by decide⟩

/-- C3 (amended): on every exit path through `clean_cg_exit`, the cleanup
branches on the final `cgname` string — which equals the argument of the last
`--cgname` option, or `""` when none was given: when it is empty the cgroup is
destroyed, when it is non-empty every task in it is killed but the group is
not removed. -/
theorem c3_cleanup_branches (u g : Nat) (opts : List CliOpt) (code : Int) :
    (parse_cli_options (init_default_config u g) opts).cgname = lastCgname opts
    ∧ (lastCgname opts = "" →
        clean_cg_exit (parse_cli_options (init_default_config u g) opts) code
          = ([Ev.cgDestroy], code))
    ∧ (lastCgname opts ≠ "" →
        clean_cg_exit (parse_cli_options (init_default_config u g) opts) code
          = ([Ev.cgKillall], code)) := by
  have hname : (parse_cli_options (init_default_config u g) opts).cgname
      = lastCgname opts := by
    rw [parse_cgname]; rfl
  refine ⟨hname, ?_, ?_⟩
  · intro h0
    unfold clean_cg_exit
    rw [hname, h0]
    simp
  · intro h0
    unfold clean_cg_exit
    rw [hname, if_neg h0]

/-- C5 (counterexample): with `--max-cpu-time 1`, an iteration whose cpu
sample equals the limit exactly does break with `CPU_TIME`, although the
sample is not strictly greater than the limit (lrun.cc:888 compares with
`>=`, the claim says `>`). -/
theorem c5_cpu_check_cex :
    loopBody cfgCpu (-1) obCpuEq Stat.zero "" = StepRes.breakLoop Stat.zero "CPU_TIME"
    ∧ ¬ (cfgCpu.cpuTimeLimit < obCpuEq.cpuSample) :=
  ⟨rfl, by decide⟩

/-- C5 (amended): in a loop iteration that passes the signal and waitpid
checks, with a cpu time limit set, the loop breaks with `CPU_TIME` exactly
when the sampled cpu usage is greater than **or equal to** the limit; in
particular a sample equal to the limit does trigger the break. -/
theorem c5_cpu_check (c : Config) (dl : ℚ) (ob : Obs) (stat : Stat) (exc : String)
    (h1 : ob.signalTriggered = 0) (h2 : ob.waitRes = WaitRes.nothingYet)
    (h3 : 0 < c.cpuTimeLimit) :
    (loopBody c dl ob stat exc = StepRes.breakLoop Stat.zero "CPU_TIME"
      ↔ c.cpuTimeLimit ≤ ob.cpuSample)
    ∧ (ob.cpuSample = c.cpuTimeLimit →
        loopBody c dl ob stat exc = StepRes.breakLoop Stat.zero "CPU_TIME") := by
  have hbody : loopBody c dl ob stat exc = afterWait c dl ob exc := by
    unfold loopBody
    rw [h1, h2]
    simp
  rw [hbody]
  have hiff : afterWait c dl ob exc = StepRes.breakLoop Stat.zero "CPU_TIME"
      ↔ c.cpuTimeLimit ≤ ob.cpuSample := by
    by_cases hc : c.cpuTimeLimit ≤ ob.cpuSample
    · constructor
      · intro _; exact hc
      · intro _
        unfold afterWait
        rw [if_pos ⟨h3, hc⟩]
    · constructor
      · intro hEq
        exfalso
        unfold afterWait at hEq
        rw [if_neg (fun hand => hc hand.2)] at hEq
        split at hEq
        · simp at hEq
        · split at hEq
          · simp at hEq
          · split at hEq
            · simp at hEq
            · split at hEq
              · simp at hEq
              · simp at hEq
      · intro hc2; exact absurd hc2 hc
  exact ⟨hiff, fun he => hiff.mpr (le_of_eq he.symm)⟩

theorem c5_cpu_check_witness :
    (loopBody cfgCpu (-1) obCpuEq Stat.zero "" = StepRes.breakLoop Stat.zero "CPU_TIME"
      ↔ cfgCpu.cpuTimeLimit ≤ obCpuEq.cpuSample)
    ∧ (obCpuEq.cpuSample = cfgCpu.cpuTimeLimit →
        loopBody cfgCpu (-1) obCpuEq Stat.zero "" = StepRes.breakLoop Stat.zero "CPU_TIME") :=
  c5_cpu_check cfgCpu (-1) obCpuEq Stat.zero "" rfl rfl (by decide)

/-- C7: a positive `--max-memory` below 500000 bytes is raised to exactly
500000, and a value of at least 500000 is kept unchanged, so the effective
limit is always at least 500000 (lrun.cc:333-341). -/
theorem c7_min_memory (c : Config) (b : Int) (hb : 0 < b) :
    500000 ≤ (applyOpt c (CliOpt.maxMemory b)).memoryLimit
    ∧ (b < 500000 → (applyOpt c (CliOpt.maxMemory b)).memoryLimit = 500000)
    ∧ (500000 ≤ b → (applyOpt c (CliOpt.maxMemory b)).memoryLimit = b) := by
  have hm : (applyOpt c (CliOpt.maxMemory b)).memoryLimit
      = (if 0 < b ∧ b < 500000 then 500000 else b) := rfl
  refine ⟨?_, ?_, ?_⟩
  · rw [hm]; split_ifs with hc <;> omega
  · intro h; rw [hm, if_pos ⟨hb, h⟩]
  · intro h; rw [hm, if_neg (by omega)]

theorem c7_min_memory_witness :
    500000 ≤ (applyOpt cfg0 (CliOpt.maxMemory 3)).memoryLimit
    ∧ ((3:Int) < 500000 → (applyOpt cfg0 (CliOpt.maxMemory 3)).memoryLimit = 500000)
    ∧ ((500000:Int) ≤ 3 → (applyOpt cfg0 (CliOpt.maxMemory 3)).memoryLimit = 3) :=
  c7_min_memory cfg0 3 (by decide)

/-- C8 (counterexample): `--syscalls "=r"` begins with neither `!` nor `-`,
yet the stored syscall list is `r`, not the whole spec: the parser also
strips a leading `=` (and `+`) while keeping whitelist mode
(lrun.cc:410-412). -/
theorem c8_syscalls_cex :
    (applyOpt cfg0 (CliOpt.syscallsOpt ['=', 'r'])).syscallList = ['r']
    ∧ (['=', 'r'].head? ≠ some '!' ∧ ['=', 'r'].head? ≠ some '-')
    ∧ (['r'] : List Char) ≠ ['=', 'r'] :=
  ⟨rfl, by decide, by decide⟩

/-- C8 (amended): parsing `--syscalls SPEC`: a leading `!` or `-` is stripped
and the mode becomes `OTHERS_EPERM` (unlisted syscalls allowed); a leading `=`
or `+` is also stripped but the mode stays `DEFAULT_EPERM` (whitelist,
unlisted syscalls denied with EPERM); with none of those four leading
characters the whole string becomes the list in whitelist mode; and an empty
list in whitelist mode is a configuration error. -/
theorem c8_syscalls_modes (c : Config) (spec rest : List Char) :
    ((spec = '!' :: rest ∨ spec = '-' :: rest) →
        (applyOpt c (CliOpt.syscallsOpt spec)).syscallAction = SyscallAction.othersEperm
        ∧ (applyOpt c (CliOpt.syscallsOpt spec)).syscallList = rest
        ∧ unlistedAllowed SyscallAction.othersEperm = true)
    ∧ ((spec = '=' :: rest ∨ spec = '+' :: rest) →
        (applyOpt c (CliOpt.syscallsOpt spec)).syscallAction = SyscallAction.defaultEperm
        ∧ (applyOpt c (CliOpt.syscallsOpt spec)).syscallList = rest
        ∧ unlistedAllowed SyscallAction.defaultEperm = false)
    ∧ ((∀ ch tl, spec = ch :: tl → ch ≠ '!' ∧ ch ≠ '-' ∧ ch ≠ '=' ∧ ch ≠ '+') →
        (applyOpt c (CliOpt.syscallsOpt spec)).syscallAction = SyscallAction.defaultEperm
        ∧ (applyOpt c (CliOpt.syscallsOpt spec)).syscallList = spec)
    ∧ (∀ (fo : FsOracle) (curUid curGid : Nat) (c2 : Config),
        c2.syscallList = [] → c2.syscallAction = SyscallAction.defaultEperm →
        emptyWhitelistMsg ∈ check_config fo curUid curGid c2) := by
  refine ⟨?_, ?_, ?_, ?_⟩
  · rintro (rfl | rfl) <;> exact ⟨rfl, rfl, rfl⟩
  · rintro (rfl | rfl) <;> exact ⟨rfl, rfl, rfl⟩
  · intro h
    cases spec with
    | nil => exact ⟨rfl, rfl⟩
    | cons ch tl =>
        obtain ⟨h1, h2, h3, h4⟩ := h ch tl rfl
        have hred : applyOpt c (CliOpt.syscallsOpt (ch :: tl))
            = {c with syscallAction := SyscallAction.defaultEperm,
                      syscallList := ch :: tl} := by
          simp only [applyOpt]
          split <;> simp_all
        rw [hred]
        exact ⟨rfl, rfl⟩
  · intro fo curUid curGid c2 hsl hsa
    have hmem : emptyWhitelistMsg ∈
        (if c2.syscallList = [] ∧ c2.syscallAction = SyscallAction.defaultEperm
         then [emptyWhitelistMsg] else []) := by
      rw [if_pos ⟨hsl, hsa⟩]; simp
    exact List.mem_append.mpr (Or.inr hmem)

/-- C9: `--max-output BYTES` stores the limit and also sets the child's
`RLIMIT_FSIZE` rlimit to the same byte value (lrun.cc:342-345), so the kernel
itself can terminate the child with SIGXFSZ. -/
theorem c9_output_limit_rlimit (c : Config) (b : Int) :
    (applyOpt c (CliOpt.maxOutput b)).outputLimit = b
    ∧ getRLimit (applyOpt c (CliOpt.maxOutput b)).rlimits RLimit.fsize = some b :=
  ⟨rfl, by
    have hr : (applyOpt c (CliOpt.maxOutput b)).rlimits
        = setRLimit c.rlimits .fsize b := rfl
    rw [hr, getRLimit_setRLimit]⟩

/-- C10: over any option list, `--group 0` is silently ignored while every
non-zero `--group` gid is appended to the supplementary group list in order
(lrun.cc:416-419). -/
theorem c10_group_zero_ignored (c : Config) (opts : List CliOpt) :
    (parse_cli_options c opts).groups
      = c.groups ++ (groupArgs opts).filter (fun g => g != 0) :=
  c10_groups_aux opts c

/-- C6 (counterexample): a child killed by SIGXCPU in a run that also overran
its real-time limit is reported with `EXCEED = REAL_TIME`, not `CPU_TIME`:
the real-time check at lrun.cc:963-967 runs after the SIGXCPU check and
overwrites the tag. -/
theorem c6_reap_tags_cex :
    stXcpu.ifSignaled = true ∧ stXcpu.termSig = SIGXCPU
    ∧ (collectStats cfgC6 0 smpC6 stXcpu "").exceeded = "REAL_TIME"
    ∧ "REAL_TIME" ≠ "CPU_TIME" := by
  refine ⟨rfl, rfl, ?_, by decide⟩
  norm_num [collectStats, cfgC6, cfg0, init_default_config, smpC6, stXcpu, SIGXCPU, SIGXFSZ]
  decide

/-- C6 (amended): after the loop, `TERMSIG` and `SIGNALED` report the reaped
status verbatim; a SIGXCPU kill forces the reported `CPUTIME` to the cpu
limit; and the final `EXCEED` tag is decided by the post-loop overrides in
last-write-wins order — real-time overrun first, then SIGXFSZ (`OUTPUT`),
then SIGXCPU or cpu overrun (`CPU_TIME`), then memory overrun (`MEMORY`) —
and only when none applies does the tag retain what the loop detected
(`none` for an empty tag). -/
theorem c6_reap_tags (c : Config) (startTime : ℚ) (smp : FinalSamples)
    (stat : Stat) (exc : String) :
    (collectStats c startTime smp stat exc).termsig = stat.termSig
    ∧ (collectStats c startTime smp stat exc).signaled = stat.ifSignaled
    ∧ (stat.ifSignaled = true → stat.termSig = SIGXCPU →
        (collectStats c startTime smp stat exc).cputime = c.cpuTimeLimit)
    ∧ (collectStats c startTime smp stat exc).exceeded =
        (if 0 < c.realTimeLimit ∧ c.realTimeLimit ≤ smp.endTime - startTime
         then "REAL_TIME"
         else if stat.ifSignaled = true ∧ stat.termSig = SIGXFSZ then "OUTPUT"
         else if (stat.ifSignaled = true ∧ stat.termSig = SIGXCPU)
                 ∨ (0 < c.cpuTimeLimit ∧ c.cpuTimeLimit ≤ smp.cpuUsage)
         then "CPU_TIME"
         else if 0 < c.memoryLimit ∧ c.memoryLimit ≤ smp.memPeak then "MEMORY"
         else if exc = "" then "none" else exc) := by
  refine ⟨rfl, rfl, ?_, ?_⟩
  · intro hs ht
    have hcpu : (collectStats c startTime smp stat exc).cputime
        = (if (stat.ifSignaled = true ∧ stat.termSig = SIGXCPU)
             ∨ (0 < c.cpuTimeLimit ∧ c.cpuTimeLimit ≤ smp.cpuUsage)
           then c.cpuTimeLimit else smp.cpuUsage) := rfl
    rw [hcpu, if_pos (Or.inl ⟨hs, ht⟩)]
  · have hexc : (collectStats c startTime smp stat exc).exceeded
        = (if (if 0 < c.realTimeLimit ∧ c.realTimeLimit ≤ smp.endTime - startTime
               then "REAL_TIME"
               else if stat.ifSignaled = true ∧ stat.termSig = SIGXFSZ then "OUTPUT"
               else if (stat.ifSignaled = true ∧ stat.termSig = SIGXCPU)
                       ∨ (0 < c.cpuTimeLimit ∧ c.cpuTimeLimit ≤ smp.cpuUsage)
               then "CPU_TIME"
               else if 0 < c.memoryLimit ∧ c.memoryLimit ≤ smp.memPeak then "MEMORY"
               else exc) = ""
           then "none"
           else (if 0 < c.realTimeLimit ∧ c.realTimeLimit ≤ smp.endTime - startTime
               then "REAL_TIME"
               else if stat.ifSignaled = true ∧ stat.termSig = SIGXFSZ then "OUTPUT"
               else if (stat.ifSignaled = true ∧ stat.termSig = SIGXCPU)
                       ∨ (0 < c.cpuTimeLimit ∧ c.cpuTimeLimit ≤ smp.cpuUsage)
               then "CPU_TIME"
               else if 0 < c.memoryLimit ∧ c.memoryLimit ≤ smp.memPeak then "MEMORY"
               else exc)) := rfl
    rw [hexc]
    by_cases hrt : 0 < c.realTimeLimit ∧ c.realTimeLimit ≤ smp.endTime - startTime
    · rw [if_pos hrt, if_pos hrt, if_neg (by decide : ¬ ("REAL_TIME" = ("" : String)))]
    · rw [if_neg hrt, if_neg hrt]
      by_cases hfs : stat.ifSignaled = true ∧ stat.termSig = SIGXFSZ
      · rw [if_pos hfs, if_pos hfs, if_neg (by decide : ¬ ("OUTPUT" = ("" : String)))]
      · rw [if_neg hfs, if_neg hfs]
        by_cases hcp : (stat.ifSignaled = true ∧ stat.termSig = SIGXCPU)
            ∨ (0 < c.cpuTimeLimit ∧ c.cpuTimeLimit ≤ smp.cpuUsage)
        · rw [if_pos hcp, if_pos hcp, if_neg (by decide : ¬ ("CPU_TIME" = ("" : String)))]
        · rw [if_neg hcp, if_neg hcp]
          by_cases hmm : 0 < c.memoryLimit ∧ c.memoryLimit ≤ smp.memPeak
          · rw [if_pos hmm, if_pos hmm, if_neg (by decide : ¬ ("MEMORY" = ("" : String)))]
          · rw [if_neg hmm, if_neg hmm]

/-- C1: whenever the supervisor loop ends normally (the child was reaped or a
limit was detected), `run_command` emits exactly one status record on fd 3 —
the keys MEMORY, CPUTIME, REALTIME, SIGNALED, EXITCODE, TERMSIG, EXCEED in
exactly that order, CPUTIME and REALTIME rendered with three decimals, and
EXCEED drawn from none/CPU_TIME/REAL_TIME/MEMORY/OUTPUT — and closes fd 3
immediately after the write. -/
theorem c1_status_record (o : RunOracle) (c : Config) (st : Stat) (exc : String)
    (h1 : o.fcntl ≠ FcntlRes.failOther) (h2 : 0 < o.spawnPid)
    (h3 : runLoop c (deadlineOf o c) o.obs Stat.zero ""
            = some (LoopExit.finished st exc)) :
    run_command o c
      = some (CmdRes.finished
          [Ev.spawnChild,
           Ev.fd3Write (render_report (collectStats c o.startTime o.final st exc)),
           Ev.fd3Close]
          (if c.passExitcode then (st.exitStatus : Int) else 0))
    ∧ (status_report (collectStats c o.startTime o.final st exc)).map Prod.fst
        = ["MEMORY", "CPUTIME", "REALTIME", "SIGNALED", "EXITCODE", "TERMSIG", "EXCEED"]
    ∧ (collectStats c o.startTime o.final st exc).exceeded
        ∈ ["none", "CPU_TIME", "REAL_TIME", "MEMORY", "OUTPUT"]
    ∧ endsInThreeDecimals (fmt3 (collectStats c o.startTime o.final st exc).cputime)
    ∧ endsInThreeDecimals (fmt3 (collectStats c o.startTime o.final st exc).realtime) := by
  have hexc : exc ∈ excTags :=
    runLoop_finished_exc c (deadlineOf o c) o.obs Stat.zero "" (by simp [excTags])
      st exc h3
  refine ⟨?_, rfl, collectStats_exceeded_mem c o.startTime o.final st exc hexc,
    fmt3_threeDecimals _, fmt3_threeDecimals _⟩
  unfold run_command
  rw [if_neg h1, if_neg (by omega : ¬ o.spawnPid ≤ 0), h3]

theorem c1_status_record_witness :
    run_command oNormal cfg0
      = some (CmdRes.finished
          [Ev.spawnChild,
           Ev.fd3Write (render_report
             (collectStats cfg0 oNormal.startTime oNormal.final statExit0 "")),
           Ev.fd3Close]
          (if cfg0.passExitcode then ((statExit0.exitStatus : Int)) else 0))
    ∧ (status_report (collectStats cfg0 oNormal.startTime oNormal.final statExit0 "")).map
        Prod.fst
        = ["MEMORY", "CPUTIME", "REALTIME", "SIGNALED", "EXITCODE", "TERMSIG", "EXCEED"]
    ∧ (collectStats cfg0 oNormal.startTime oNormal.final statExit0 "").exceeded
        ∈ ["none", "CPU_TIME", "REAL_TIME", "MEMORY", "OUTPUT"]
    ∧ endsInThreeDecimals
        (fmt3 (collectStats cfg0 oNormal.startTime oNormal.final statExit0 "").cputime)
    ∧ endsInThreeDecimals
        (fmt3 (collectStats cfg0 oNormal.startTime oNormal.final statExit0 "").realtime) :=
  c1_status_record oNormal cfg0 statExit0 "" (by decide) (by decide) rfl

/-- C2 (counterexample): a failure of `fcntl(3, F_SETFD, FD_CLOEXEC)` with
`errno == EBADF` is ignored (lrun.cc:822-826): the run continues and ends
with exit code 0 instead of 5, so not every FD_CLOEXEC failure exits 5. -/
theorem c2_exit_codes_cex :
    oEbadf.fcntl = FcntlRes.failEbadf
    ∧ run_command oEbadf cfg0
        = some (CmdRes.finished
            [Ev.spawnChild,
             Ev.fd3Write (render_report (collectStats cfg0 0 fin0 statExit0 "")),
             Ev.fd3Close] 0)
    ∧ (0 : Int) ≠ 5 :=
  ⟨rfl, rfl, by decide⟩

/-- C2 (amended): the supervisor's exit code identifies the failure:
memory-limit setup failure exits 2, cgroup-option failure 7, usage-reset
failure 4, zombie-reap failure 6, an FD_CLOEXEC failure on fd 3 other than
`EBADF` exits 5 (an `EBADF` failure is ignored), child-spawn failure with
spawn result `e ≤ 0` exits `10 - e`, signal-triggered cleanup exits 4; on
normal termination with the report written the exit code is the child's exit
status when `--pass-exitcode` is set and 0 otherwise, and `clean_cg_exit`
preserves it. -/
theorem c2_exit_codes (so : SetupOracle) (o : RunOracle) (c : Config) (ob : Obs)
    (dl : ℚ) (st : Stat) (exc : String) (code r : Int) :
    (¬ (c.enableDevicesWhitelist = true ∧ so.limitDevicesFails = true) →
      (0 < c.memoryLimit ∧ so.setMemoryLimitFails = true) →
      setup_cgroup so c = .error (clean_cg_exit c 2))
    ∧ (¬ (c.enableDevicesWhitelist = true ∧ so.limitDevicesFails = true) →
        ¬ (0 < c.memoryLimit ∧ so.setMemoryLimitFails = true) →
        (c.cgroupOptions.find? so.cgOptionFails).isSome = true →
        setup_cgroup so c = .error (clean_cg_exit c 7))
    ∧ (¬ (c.enableDevicesWhitelist = true ∧ so.limitDevicesFails = true) →
        ¬ (0 < c.memoryLimit ∧ so.setMemoryLimitFails = true) →
        c.cgroupOptions.find? so.cgOptionFails = none →
        so.resetUsagesFails = true →
        setup_cgroup so c = .error (clean_cg_exit c 4))
    ∧ (o.fcntl = FcntlRes.failOther →
        run_command o c = some (CmdRes.exited (clean_cg_exit c 5).1 5))
    ∧ (run_command {o with fcntl := FcntlRes.failEbadf} c
        = run_command {o with fcntl := FcntlRes.ok} c)
    ∧ (o.fcntl ≠ FcntlRes.failOther → o.spawnPid ≤ 0 →
        run_command o c
          = some (CmdRes.exited (clean_cg_exit c (10 - o.spawnPid)).1
              (10 - o.spawnPid)))
    ∧ (ob.signalTriggered ≠ 0 → loopBody c dl ob st exc = StepRes.cleanup 4)
    ∧ (ob.signalTriggered = 0 → ob.waitRes = WaitRes.nothingYet →
        ¬ (0 < c.cpuTimeLimit ∧ c.cpuTimeLimit ≤ ob.cpuSample) →
        ¬ (0 < dl ∧ dl ≤ ob.nowTime) →
        ¬ (c.memoryLimit ≤ ob.memPeak ∧ 0 < c.memoryLimit) →
        ob.procState = 'Z' → ob.zombieWait = ZWait.err →
        loopBody c dl ob st exc = StepRes.cleanup 6)
    ∧ (o.fcntl ≠ FcntlRes.failOther → 0 < o.spawnPid →
        runLoop c (deadlineOf o c) o.obs Stat.zero "" = some (LoopExit.cleanup code) →
        run_command o c
          = some (CmdRes.exited (Ev.spawnChild :: (clean_cg_exit c code).1) code))
    ∧ (o.fcntl ≠ FcntlRes.failOther → 0 < o.spawnPid →
        runLoop c (deadlineOf o c) o.obs Stat.zero "" = some (LoopExit.finished st exc) →
        run_command o c
          = some (CmdRes.finished
              [Ev.spawnChild,
               Ev.fd3Write (render_report (collectStats c o.startTime o.final st exc)),
               Ev.fd3Close]
              (if c.passExitcode then (st.exitStatus : Int) else 0)))
    ∧ (clean_cg_exit c r).2 = r := by
  refine ⟨?_, ?_, ?_, ?_, ?_, ?_, ?_, ?_, ?_, ?_, rfl⟩
  · intro hdev hmem
    unfold setup_cgroup
    rw [if_neg hdev, if_pos hmem]
  · intro hdev hmem hopt
    unfold setup_cgroup
    rw [if_neg hdev, if_neg hmem, if_pos hopt]
  · intro hdev hmem hfind hreset
    unfold setup_cgroup
    rw [if_neg hdev, if_neg hmem, hfind]
    simp [hreset]
  · intro h
    unfold run_command
    rw [if_pos h]
  · rfl
  · intro h1 h2
    unfold run_command
    rw [if_neg h1, if_pos h2]
  · intro h
    unfold loopBody
    rw [if_pos h]
  · intro h0 hw hcpu hrt hmem hz hzw
    simp [loopBody, afterWait, zombieCheck, h0, hw, hcpu, hrt, hmem, hz, hzw]
  · intro h1 h2 h3
    unfold run_command
    rw [if_neg h1, if_neg (by omega : ¬ o.spawnPid ≤ 0), h3]
  · intro h1 h2 h3
    unfold run_command
    rw [if_neg h1, if_neg (by omega : ¬ o.spawnPid ≤ 0), h3]

theorem mem_check_config_nonroot (fo : FsOracle) (curUid curGid : Nat) (c : Config)
    (hr : curUid ≠ 0) (m : String) (h : m ∈ nonRootChecks fo c) :
    m ∈ check_config fo curUid curGid c := by
  unfold check_config
  refine List.mem_append.mpr (Or.inl (List.mem_append.mpr (Or.inr ?_)))
  rw [if_neg hr]
  exact h

/-- C4: configuration validation collects a message for each violation — uid
or gid 0, an empty command, a non-root caller requesting another uid/gid,
`--cmd`, `--group`, a negative `--nice` or `--no-new-privs false`, a relative
or unreadable bind/chroot/chdir path, `--remount-ro` without a matching
bindfs destination, and an empty syscall whitelist — and when any message was
collected, every one is printed to stderr, the process exits with code 1, and
nothing is written to fd 3 because the child is never spawned. -/
theorem c4_config_errors (fo : FsOracle) (so : SetupOracle) (o : RunOracle)
    (curUid curGid : Nat) (opts : List CliOpt) (cmdArgc : Int) (c : Config) :
    (c.uid = 0 → uidZeroMsg ∈ check_config fo curUid curGid c)
    ∧ (c.uid ≠ 0 → curUid ≠ 0 → c.uid ≠ curUid →
        uidOtherMsg ∈ check_config fo curUid curGid c)
    ∧ (c.gid = 0 → gidZeroMsg ∈ check_config fo curUid curGid c)
    ∧ (c.gid ≠ 0 → curUid ≠ 0 → c.gid ≠ curGid →
        gidOtherMsg ∈ check_config fo curUid curGid c)
    ∧ (c.argc ≤ 0 → emptyCommandMsg ∈ check_config fo curUid curGid c)
    ∧ (curUid ≠ 0 → c.cmdList ≠ [] → cmdRootMsg ∈ check_config fo curUid curGid c)
    ∧ (curUid ≠ 0 → c.groups ≠ [] → groupRootMsg ∈ check_config fo curUid curGid c)
    ∧ (curUid ≠ 0 → c.nice < 0 → negNiceMsg ∈ check_config fo curUid curGid c)
    ∧ (curUid ≠ 0 → c.noNewPrivs = false →
        noNewPrivsMsg ∈ check_config fo curUid curGid c)
    ∧ (curUid ≠ 0 → ∀ p ∈ c.remountList, c.bindfsDestSet.contains p.1 = false →
        remountRoMsg ∈ check_config fo curUid curGid c)
    ∧ (curUid ≠ 0 → ∀ d s rest2, c.bindfsList = (d, s) :: rest2 →
        fo.isAbsolute s = false → relPathMsg s ∈ check_config fo curUid curGid c)
    ∧ (curUid ≠ 0 → c.bindfsList = [] → c.chrootPath ≠ "" →
        fo.isAbsolute c.chrootPath = false →
        relPathMsg c.chrootPath ∈ check_config fo curUid curGid c)
    ∧ (curUid ≠ 0 → c.bindfsList = [] → c.chrootPath ≠ "" →
        fo.isAbsolute c.chrootPath = true →
        fo.isAbsolute (fo.expand c.chrootPath) = true →
        fo.isDir (fo.expand c.chrootPath) = false →
        fo.isAccessible (fo.expand c.chrootPath) 4 = false →
        permMsg 4 (fo.expand c.chrootPath) ∈ check_config fo curUid curGid c)
    ∧ (curUid ≠ 0 → c.bindfsList = [] → c.chdirPath ≠ "" →
        fo.isAbsolute (fo.join c.chrootPath c.chdirPath) = false →
        relPathMsg (fo.join c.chrootPath c.chdirPath)
          ∈ check_config fo curUid curGid c)
    ∧ (c.syscallList = [] → c.syscallAction = SyscallAction.defaultEperm →
        emptyWhitelistMsg ∈ check_config fo curUid curGid c)
    ∧ (check_config fo curUid curGid (parsedConfig curUid curGid opts cmdArgc) ≠ [] →
        lrun_main fo so o curUid curGid opts cmdArgc
          = some ((check_config fo curUid curGid
                (parsedConfig curUid curGid opts cmdArgc)).map Ev.stderrMsg
              ++ [Ev.stderrMsg fixupMsg], 1))
    ∧ (∀ s, Ev.fd3Write s ∉
        (check_config fo curUid curGid
          (parsedConfig curUid curGid opts cmdArgc)).map Ev.stderrMsg
        ++ [Ev.stderrMsg fixupMsg])
    ∧ (Ev.spawnChild ∉
        (check_config fo curUid curGid
          (parsedConfig curUid curGid opts cmdArgc)).map Ev.stderrMsg
        ++ [Ev.stderrMsg fixupMsg])
    ∧ (Ev.fd3Close ∉
        (check_config fo curUid curGid
          (parsedConfig curUid curGid opts cmdArgc)).map Ev.stderrMsg
        ++ [Ev.stderrMsg fixupMsg]) := by
  refine ⟨?_, ?_, ?_, ?_, ?_, ?_, ?_, ?_, ?_, ?_, ?_, ?_, ?_, ?_, ?_, ?_, ?_, ?_, ?_⟩
  · intro h
    have hseg : uidZeroMsg ∈ (if c.uid = 0 then [uidZeroMsg]
        else if curUid ≠ 0 ∧ c.uid ≠ curUid then [uidOtherMsg] else []) := by
      rw [if_pos h]; simp
    unfold check_config; simp only [List.mem_append]; tauto
  · intro h hr hne
    have hseg : uidOtherMsg ∈ (if c.uid = 0 then [uidZeroMsg]
        else if curUid ≠ 0 ∧ c.uid ≠ curUid then [uidOtherMsg] else []) := by
      rw [if_neg h, if_pos ⟨hr, hne⟩]; simp
    unfold check_config; simp only [List.mem_append]; tauto
  · intro h
    have hseg : gidZeroMsg ∈ (if c.gid = 0 then [gidZeroMsg]
        else if curUid ≠ 0 ∧ c.gid ≠ curGid then [gidOtherMsg] else []) := by
      rw [if_pos h]; simp
    unfold check_config; simp only [List.mem_append]; tauto
  · intro h hr hne
    have hseg : gidOtherMsg ∈ (if c.gid = 0 then [gidZeroMsg]
        else if curUid ≠ 0 ∧ c.gid ≠ curGid then [gidOtherMsg] else []) := by
      rw [if_neg h, if_pos ⟨hr, hne⟩]; simp
    unfold check_config; simp only [List.mem_append]; tauto
  · intro h
    have hseg : emptyCommandMsg ∈ (if c.argc ≤ 0 then [emptyCommandMsg] else []) := by
      rw [if_pos h]; simp
    unfold check_config; simp only [List.mem_append]; tauto
  · intro hr h
    have hseg : cmdRootMsg ∈ nonRootChecks fo c := by
      have hm : cmdRootMsg ∈ (if 0 < c.cmdList.length then [cmdRootMsg] else []) := by
        rw [if_pos (List.length_pos.mpr h)]; simp
      unfold nonRootChecks; simp only [List.mem_append]; tauto
    exact mem_check_config_nonroot fo curUid curGid c hr _ hseg
  · intro hr h
    have hseg : groupRootMsg ∈ nonRootChecks fo c := by
      have hm : groupRootMsg ∈ (if 0 < c.groups.length then [groupRootMsg] else []) := by
        rw [if_pos (List.length_pos.mpr h)]; simp
      unfold nonRootChecks; simp only [List.mem_append]; tauto
    exact mem_check_config_nonroot fo curUid curGid c hr _ hseg
  · intro hr h
    have hseg : negNiceMsg ∈ nonRootChecks fo c := by
      have hm : negNiceMsg ∈ (if c.nice < 0 then [negNiceMsg] else []) := by
        rw [if_pos h]; simp
      unfold nonRootChecks; simp only [List.mem_append]; tauto
    exact mem_check_config_nonroot fo curUid curGid c hr _ hseg
  · intro hr h
    have hseg : noNewPrivsMsg ∈ nonRootChecks fo c := by
      have hm : noNewPrivsMsg ∈ (if c.noNewPrivs = false then [noNewPrivsMsg] else []) := by
        rw [if_pos h]; simp
      unfold nonRootChecks; simp only [List.mem_append]; tauto
    exact mem_check_config_nonroot fo curUid curGid c hr _ hseg
  · intro hr p hp hcon
    have hseg : remountRoMsg ∈ nonRootChecks fo c := by
      have hm : remountRoMsg ∈ remountRoMsgs c :=
        List.mem_filterMap.mpr ⟨p, hp, by rw [hcon]; simp⟩
      unfold nonRootChecks; simp only [List.mem_append]; tauto
    exact mem_check_config_nonroot fo curUid curGid c hr _ hseg
  · intro hr d s rest2 hb habs
    have hseg : relPathMsg s ∈ nonRootChecks fo c := by
      have hm : relPathMsg s ∈ (bindfsCheckLoop fo c.bindfsList []).1 := by
        rw [hb]
        simp [bindfsCheckLoop, follow_binds, check_path_permission, habs]
      unfold nonRootChecks; simp only [List.mem_append]; tauto
    exact mem_check_config_nonroot fo curUid curGid c hr _ hseg
  · intro hr hb hcr habs
    have hseg : relPathMsg c.chrootPath ∈ nonRootChecks fo c := by
      have hm : relPathMsg c.chrootPath ∈ (if c.chrootPath ≠ "" then
          check_path_permission fo
            (follow_binds fo (bindfsCheckLoop fo c.bindfsList []).2 c.chrootPath) 4
          else []) := by
        rw [if_pos hcr, hb]
        simp [bindfsCheckLoop, follow_binds, check_path_permission, habs]
      unfold nonRootChecks; simp only [List.mem_append]; tauto
    exact mem_check_config_nonroot fo curUid curGid c hr _ hseg
  · intro hr hb hcr habs habs2 hd hacc
    have hseg : permMsg 4 (fo.expand c.chrootPath) ∈ nonRootChecks fo c := by
      have hm : permMsg 4 (fo.expand c.chrootPath) ∈ (if c.chrootPath ≠ "" then
          check_path_permission fo
            (follow_binds fo (bindfsCheckLoop fo c.bindfsList []).2 c.chrootPath) 4
          else []) := by
        rw [if_pos hcr, hb]
        simp [bindfsCheckLoop, follow_binds, followBindsFrom, check_path_permission,
          habs, habs2, hd, hacc]
      unfold nonRootChecks; simp only [List.mem_append]; tauto
    exact mem_check_config_nonroot fo curUid curGid c hr _ hseg
  · intro hr hb hcd habs
    have hseg : relPathMsg (fo.join c.chrootPath c.chdirPath) ∈ nonRootChecks fo c := by
      have hm : relPathMsg (fo.join c.chrootPath c.chdirPath) ∈ (if c.chdirPath ≠ "" then
          check_path_permission fo
            (follow_binds fo (bindfsCheckLoop fo c.bindfsList []).2
              (fo.join c.chrootPath c.chdirPath)) 4
          else []) := by
        rw [if_pos hcd, hb]
        simp [bindfsCheckLoop, follow_binds, check_path_permission, habs]
      unfold nonRootChecks; simp only [List.mem_append]; tauto
    exact mem_check_config_nonroot fo curUid curGid c hr _ hseg
  · intro hsl hsa
    have hseg : emptyWhitelistMsg ∈
        (if c.syscallList = [] ∧ c.syscallAction = SyscallAction.defaultEperm
         then [emptyWhitelistMsg] else []) := by
      rw [if_pos ⟨hsl, hsa⟩]; simp
    unfold check_config; simp only [List.mem_append]; tauto
  · intro hne
    have hE : (check_config fo curUid curGid
        (parsedConfig curUid curGid opts cmdArgc)).isEmpty = false := by
      rcases hc : check_config fo curUid curGid
          (parsedConfig curUid curGid opts cmdArgc) with _ | ⟨a, l⟩
      · exact absurd hc hne
      · rfl
    simp only [lrun_main]
    rw [hE]
    simp
  · intro s
    simp
  · simp
  · simp

end Lrun
